import Mathlib

/-!
Verification of the DD1750 packing-list generator core (`dd1750_core.py`).

The Python module is shallowly embedded: cells extracted from a PDF table are
`Option String` (a cell may be `None`), a table is a list of rows, a page is a
pair of tables and page text, and a whole document handed to the extraction
orchestrator is `Except String (List PageData)` (the `error` case models a
document that cannot be opened/decoded, which in Python raises out of
`pdfplumber.open`).  Python strings are modelled as `List Char` internally
(ASCII data, which is what these military supply documents contain), and the
handful of regular expressions used by the code are modelled by explicit
recursive searches that mirror the leftmost-match semantics of `re.match` /
`re.search` on those patterns.
-/

namespace DD1750

/-- Python `str.strip` whitespace class (ASCII part, which is all that occurs
in the PDF cell data this program processes). -/
def pyIsSpace (c : Char) : Bool :=
  c = ' ' || c = '\t' || c = '\n' || c = '\r' || c = '\x0b' || c = '\x0c'

/-- Regex word character `\w` (ASCII part): letters, digits, underscore. -/
def isWordC (c : Char) : Bool :=
  c.isAlphanum || c = '_'

/-- Python `str.strip()` on char lists: drop whitespace at both ends. -/
def pyStrip (l : List Char) : List Char :=
  ((l.dropWhile pyIsSpace).reverse.dropWhile pyIsSpace).reverse

/-- Python `str.upper()` (ASCII). -/
def pyUpper (l : List Char) : List Char :=
  l.map Char.toUpper

/-- Python `str.split(sep)` for a single-character separator: always returns
at least one (possibly empty) chunk, like Python. -/
def splitOnChar (sep : Char) : List Char → List (List Char)
  | [] => [[]]
  | c :: rest =>
    let r := splitOnChar sep rest
    if c = sep then [] :: r
    else
      match r with
      | [] => [[c]]
      | g :: gs => (c :: g) :: gs

/-- Python `str.split()` with no argument: split on whitespace runs,
dropping empty chunks. -/
def pySplitWs (l : List Char) : List (List Char) :=
  (splitOnChar ' ' (l.map (fun c => if pyIsSpace c then ' ' else c))).filter
    (fun g => !g.isEmpty)

/-- Substring test: `needle in hay` on Python strings. -/
def containsSub (needle : List Char) : List Char → Bool
  | [] => needle.isEmpty
  | c :: rest => needle.isPrefixOf (c :: rest) || containsSub needle rest

/-- `int(s)` on a string of decimal digits. -/
def digitsToNat (l : List Char) : Nat :=
  l.foldl (fun n c => 10 * n + (c.toNat - ('0').toNat)) 0

/-- Model of `re.search(r'(\d+)', s)`: the leftmost maximal run of digits,
or `none` when the string has no digit. -/
def firstDigitRun : List Char → Option (List Char)
  | [] => none
  | c :: rest =>
    if c.isDigit then some (c :: rest.takeWhile Char.isDigit)
    else firstDigitRun rest

/-- `extract_quantity` (dd1750_core.py lines 285-305): falsy cell (absent or
empty string) yields 1; otherwise the first digit run anywhere in the
stripped cell text is parsed with `int`; 1 when there is no digit. -/
def extract_quantity (qty_cell : Option String) : Nat :=
  match qty_cell with
  | none => 1
  | some s =>
    if s = "" then 1
    else
      match firstDigitRun (pyStrip s.data) with
      | some ds => digitsToNat ds
      | none => 1

/-- A word boundary to the right of a match: end of input or a non-word
character next. -/
def boundaryOk : List Char → Bool
  | [] => true
  | c :: _ => !isWordC c

/-- Model of `re.match(r'^(\d{9})\b', line)`: nine leading digits followed by
a word boundary (end of string or a non-word character). -/
def leadingNine (line : List Char) : Option (List Char) :=
  if (line.take 9).length == 9 && (line.take 9).all Char.isDigit &&
      boundaryOk (line.drop 9) then
    some (line.take 9)
  else
    none

/-- Model of `re.search(r'\b(\d{9})\b', text)`: leftmost nine-digit token
delimited by word boundaries.  The boolean argument records whether the
current position is preceded by start-of-string or a non-word character. -/
def searchNine (bOk : Bool) : List Char → Option (List Char)
  | [] => none
  | c :: rest =>
    match (if bOk then leadingNine (c :: rest) else none) with
    | some d => some d
    | none => searchNine (!isWordC c) rest

/-- One attempted match of `\b(\d{4})-(\d{2})-(\d{3})-(\d{4})\b` at the head
of the list (the leading boundary is checked by the caller); returns the
concatenation of the last three groups, as the Python code does. -/
def nsnAt : List Char → Option (List Char)
  | a :: b :: c :: d :: s1 :: e :: f :: s2 :: g :: h :: i :: s3 :: j :: k :: m :: n :: rest =>
    if ([a, b, c, d].all Char.isDigit) && s1 == '-' &&
        ([e, f].all Char.isDigit) && s2 == '-' &&
        ([g, h, i].all Char.isDigit) && s3 == '-' &&
        ([j, k, m, n].all Char.isDigit) && boundaryOk rest then
      some [e, f, g, h, i, j, k, m, n]
    else
      none
  | _ => none

/-- Model of `re.search` for the full-NSN pattern: leftmost match. -/
def searchNsn (bOk : Bool) : List Char → Option (List Char)
  | [] => none
  | c :: rest =>
    match (if bOk then nsnAt (c :: rest) else none) with
    | some d => some d
    | none => searchNsn (!isWordC c) rest

/-- Layer 1 of `extract_nsn_from_material`: scan each line of the stripped
text for a leading nine-digit token. -/
def nsnLayerLine (text : List Char) : Option (List Char) :=
  (splitOnChar '\n' text).findSome? (fun line => leadingNine (pyStrip line))

/-- Layer 2: any standalone nine-digit token anywhere in the text. -/
def nsnLayerAny (text : List Char) : Option (List Char) :=
  searchNine true text

/-- Layer 3: a `4-2-3-4` hyphenated NSN; the last three groups concatenated. -/
def nsnLayerHyphen (text : List Char) : Option (List Char) :=
  searchNsn true text

/-- `extract_nsn_from_material` (dd1750_core.py lines 207-250). -/
def extract_nsn_from_material (material_text : String) : String :=
  if material_text = "" then ""
  else
    let text := pyStrip material_text.data
    match nsnLayerLine text with
    | some d => String.mk d
    | none =>
      match nsnLayerAny text with
      | some d => String.mk d
      | none =>
        match nsnLayerHyphen text with
        | some d => String.mk d
        | none => ""

/-- The result shape promised for stock numbers: exactly nine ASCII digits. -/
def isNineDigits (s : String) : Bool :=
  s.data.length = 9 && s.data.all Char.isDigit

/-! ## Data model -/

/-- A table cell as returned by the PDF table extractor: possibly absent. -/
abbrev Cell := Option String

/-- A table row. -/
abbrev Row := List Cell

/-- A table: header row followed by data rows. -/
abbrev Table := List Row

/-- `BomFormat` enum. -/
inductive BomFormat where
  | GCSS_ARMY_STANDARD
  | EPP_FORMAT
  | UNKNOWN
deriving DecidableEq, Repr

/-- `BomItem` dataclass (line 56).  `original_description` is set by
`__post_init__` to `description` when left empty, which is how the two
extractors construct items. -/
structure BomItem where
  line_no : Nat
  description : String
  nsn : String := ""
  qty : Nat := 1
  unit_of_issue : String := "EA"
  material_number : String := ""
  is_editable : Bool := true
  original_description : String := ""
deriving DecidableEq, Repr

instance : Inhabited BomItem := ⟨{ line_no := 0, description := "" }⟩

/-- `HeaderInfo` dataclass (lines 75-84). -/
structure HeaderInfo where
  packed_by : String := ""
  num_boxes : String := "1"
  requisition_no : String := ""
  order_no : String := ""
  end_item : String := ""
  date : String := ""
deriving DecidableEq, Repr

/-- `ExtractionResult` (lines 101-109), restricted to the fields the
verified claims mention (the `metadata` component is independent of them). -/
structure ExtractionResult where
  items : List BomItem := []
  warnings : List String := []
  errors : List String := []
  pages_processed : Nat := 0
  format_detected : BomFormat := BomFormat.UNKNOWN
deriving DecidableEq, Repr

/-! ## Format detector -/

/-- `str(cell or '')`: an absent cell renders as the empty string. -/
def cellOr (c : Cell) : String :=
  match c with
  | none => ""
  | some s => s

/-- A Python-truthy cell: present and not the empty string. -/
def truthy (c : Cell) : Bool :=
  match c with
  | none => false
  | some s => !(s = "")

/-- `' '.join(str(cell or '') for cell in header).upper()`. -/
def headerTextOf (h : Row) : List Char :=
  pyUpper (List.intercalate [' '] (h.map (fun c => (cellOr c).data)))

/-- The page-level listing marker of `detect_bom_format` (line 124). -/
def listingMarker (pt : List Char) : Bool :=
  containsSub ("COMPONENT LISTING").data pt || containsSub ("HAND RECEIPT").data pt

/-- Some table's header row contains an `LV`/`LEVEL` marker (lines 126-131). -/
def lvHeaderMarker (tables : List Table) : Bool :=
  tables.any (fun t =>
    match t with
    | [] => false
    | h :: _ =>
      containsSub ("LV").data (headerTextOf h) ||
        containsSub ("LEVEL").data (headerTextOf h))

/-- Page text contains both `AUTH` and `QTY` (line 134). -/
def authQtyMarker (pt : List Char) : Bool :=
  containsSub ("AUTH").data pt && containsSub ("QTY").data pt

/-- The EPP-format page markers (line 138). -/
def eppMarker (pt : List Char) : Bool :=
  containsSub ("PWR PLANT").data pt || containsSub ("OPERATIONAL SUPPORT").data pt

/-- Some table's header mentions both `MATERIAL` and `DESCRIPTION`
(lines 142-147). -/
def matDescHeaderMarker (tables : List Table) : Bool :=
  tables.any (fun t =>
    match t with
    | [] => false
    | h :: _ =>
      containsSub ("MATERIAL").data (headerTextOf h) &&
        containsSub ("DESCRIPTION").data (headerTextOf h))

/-- `detect_bom_format` (lines 112-149), with the nested `if`/fall-through
structure flattened into the equivalent priority chain. -/
def detect_bom_format (tables : List Table) (page_text : String) : BomFormat :=
  let pt := pyUpper page_text.data
  if listingMarker pt && lvHeaderMarker tables then BomFormat.GCSS_ARMY_STANDARD
  else if listingMarker pt && authQtyMarker pt then BomFormat.GCSS_ARMY_STANDARD
  else if eppMarker pt then BomFormat.EPP_FORMAT
  else if matDescHeaderMarker tables then BomFormat.GCSS_ARMY_STANDARD
  else BomFormat.UNKNOWN

/-! ## Column mapper -/

/-- The dictionary built by `find_column_indices` (lines 152-204). -/
structure ColIdx where
  lv : Option Nat := none
  description : Option Nat := none
  material : Option Nat := none
  auth_qty : Option Nat := none
  oh_qty : Option Nat := none
  ui : Option Nat := none
  image : Option Nat := none
deriving DecidableEq, Repr

/-- One iteration of the `find_column_indices` loop body: the `elif` chain
over a single header cell (falsy cells are skipped). -/
def updateColIdx (acc : ColIdx) (i : Nat) (cell : Cell) : ColIdx :=
  match cell with
  | none => acc
  | some s =>
    if s = "" then acc
    else
      let text := pyStrip (pyUpper s.data)
      let tj := text.map (fun c => if c = '\n' then ' ' else c)
      if text = ("LV").data || text = ("LEVEL").data ||
          (pySplitWs text).contains ("LV").data then
        { acc with lv := some i }
      else if containsSub ("DESC").data text then
        { acc with description := some i }
      else if containsSub ("MATERIAL").data text || text = ("MAT").data then
        { acc with material := some i }
      else if (containsSub ("AUTH").data tj && containsSub ("QTY").data tj) ||
          tj = ("AUTH QTY").data then
        { acc with auth_qty := some i }
      else if (containsSub ("OH").data tj && containsSub ("QTY").data tj) ||
          tj = ("OH QTY").data then
        { acc with oh_qty := some i }
      else if text = ("UI").data || text = ("UNIT").data then
        { acc with ui := some i }
      else if containsSub ("IMAGE").data text || text = ("IMG").data then
        { acc with image := some i }
      else acc

/-- `find_column_indices` (lines 152-204): fold the `elif` chain over the
enumerated header cells; a later matching cell overwrites an earlier one. -/
def find_column_indices (header : Row) : ColIdx :=
  header.enum.foldl (fun acc p => updateColIdx acc p.1 p.2) {}

/-! ## Description pipelines -/

/-- Whitespace normalisation `re.sub(r'\s+', ' ', s)`: every maximal
whitespace run becomes a single space.  The boolean accumulator records
whether the previous character belonged to a whitespace run. -/
def collapseWsAux (prevSpace : Bool) : List Char → List Char
  | [] => []
  | c :: rest =>
    if pyIsSpace c then
      if prevSpace then collapseWsAux true rest
      else ' ' :: collapseWsAux true rest
    else c :: collapseWsAux false rest

def collapseWs (l : List Char) : List Char :=
  collapseWsAux false l

def isSlashC (c : Char) : Bool :=
  c = '/' || c = '\\'

/-- `re.sub(r'[/\\]+\s*$', '', s)` (line 381): remove one trailing run of
slashes (and any whitespace after it). -/
def stripTrailingSlashes (l : List Char) : List Char :=
  let r := l.reverse
  let r1 := r.dropWhile pyIsSpace
  match r1 with
  | [] => l
  | c :: _ => if isSlashC c then (r1.dropWhile isSlashC).reverse else l

/-- The trailing code alternatives of `clean_description` (line 276). -/
def trailingCodes : List String :=
  ["WTY", "ARC", "CIIC", "UI", "SCMC", "EA", "AY", "9K", "9G", "9B", "9T",
   "2B", "2E", "2W", "2T", "85", "7K", "7B"]

/-- `re.sub(r'\s+(WTY|...)$', '', s, flags=IGNORECASE)` (lines 276-277):
when the text ends in a whitespace run followed by one of the codes, remove
that whitespace run and the code.  No code of the list is a proper suffix of
another, so the alternative that matches is unique. -/
def stripTrailingCode (l : List Char) : List Char :=
  let r := l.reverse
  let ru := pyUpper r
  match trailingCodes.findSome? (fun code =>
      let cr := code.data.reverse
      if ru.take cr.length = cr then
        match r.drop cr.length with
        | [] => none
        | c :: _ =>
          if pyIsSpace c then some (((r.drop cr.length).dropWhile pyIsSpace).reverse)
          else none
      else none) with
  | some res => res
  | none => l

/-- `clean_description` (lines 253-282), the EPP-path description cleaner. -/
def clean_description (cell : Cell) : List Char :=
  match cell with
  | none => []
  | some s =>
    if s = "" then []
    else
      let lines := splitOnChar '\n' (pyStrip s.data)
      let d0 := if 2 ≤ lines.length then pyStrip (lines.getD 1 [])
                else pyStrip (lines.getD 0 [])
      let d1 := if d0.contains '(' then pyStrip (d0.takeWhile (fun c => !(c = '(')))
                else d0
      let d2 := stripTrailingCode d1
      pyStrip (collapseWs d2)

/-- The standard-path description pipeline (lines 365-381): first line of the
cell that strips to at least three characters, whitespace-normalised, with
trailing slashes removed. -/
def stdDesc (cell : Cell) : List Char :=
  match cell with
  | none => []
  | some s =>
    if s = "" then []
    else
      let lines := splitOnChar '\n' (pyStrip s.data)
      match lines.findSome? (fun l =>
          let l2 := pyStrip l
          if !l2.isEmpty && 3 ≤ l2.length then some l2 else none) with
      | none => []
      | some d => stripTrailingSlashes (pyStrip (collapseWs d))

/-- The standard-path category skip patterns (lines 387-390): substring
match against the uppercased description. -/
def stdSkip (d : List Char) : Bool :=
  [("COMPONENT OF END ITEM"), ("BASIC ISSUE ITEMS"), ("COEI-"), ("BII-"),
   ("OPERATIONAL SUPPORT")].any (fun p => containsSub p.data (pyUpper d))

/-- The EPP-path category skip set (lines 492-493): exact match of the
uppercased description. -/
def eppExactSkip (d : List Char) : Bool :=
  [("COMPONENT OF END ITEM"), ("BASIC ISSUE ITEMS"), ("OPERATIONAL SUPPORT"),
   ("COEI"), ("BII")].any (fun p => pyUpper d = p.data)

/-! ## Per-format row extractors -/

/-- The data computed for a row before the surrounding list assigns the line
number: `description[:100]`, stock number, and quantity. -/
structure RawItem where
  description : String
  nsn : String
  qty : Nat
deriving DecidableEq, Repr

/-- Stock number of a row (lines 394-398, identical at 496-499): from the
material cell when the material column is resolved and in range. -/
def rowNsn (idx : ColIdx) (row : Row) : String :=
  match idx.material with
  | none => ""
  | some m =>
    if m < row.length then extract_nsn_from_material (cellOr (row.getD m none))
    else ""

/-- Quantity of a standard-path row (lines 400-406): from the authorized
quantity column when resolved, in range and truthy; 1 otherwise. -/
def rowQtyStd (idx : ColIdx) (row : Row) : Nat :=
  match idx.auth_qty with
  | none => 1
  | some a =>
    if a < row.length then
      let qc := row.getD a none
      if truthy qc then extract_quantity qc else 1
    else 1

/-- Quantity of an EPP-path row (lines 501-504): from the authorized
quantity column when resolved and in range; 1 otherwise. -/
def rowQtyEpp (idx : ColIdx) (row : Row) : Nat :=
  match idx.auth_qty with
  | none => 1
  | some a =>
    if a < row.length then extract_quantity (row.getD a none)
    else 1

/-- The standard-path level check (lines 356-363): when the level column is
resolved, the row survives only if its level cell is truthy and strips and
uppercases to exactly `B`. -/
def stdLvOk (idx : ColIdx) (row : Row) : Bool :=
  match idx.lv with
  | none => true
  | some i =>
    match row.getD i none with
    | none => false
    | some s => if s = "" then false else pyStrip (pyUpper s.data) = ("B").data

/-- The EPP-path level check (lines 478-482): skip only a truthy level cell
that strips and uppercases to exactly `A`. -/
def eppLvSkip (idx : ColIdx) (row : Row) : Bool :=
  match idx.lv with
  | none => false
  | some i =>
    match row.getD i none with
    | none => false
    | some s => if s = "" then false else pyStrip (pyUpper s.data) = ("A").data

/-- The description a standard-path row would yield. -/
def stdRowDesc (idx : ColIdx) (row : Row) : List Char :=
  match idx.description with
  | none => []
  | some d => stdDesc (row.getD d none)

/-- The description an EPP-path row would yield. -/
def eppRowDesc (idx : ColIdx) (row : Row) : List Char :=
  match idx.description with
  | none => []
  | some d => clean_description (row.getD d none)

/-- One data row of the standard-path loop (lines 350-417): `none` when any
of the sequential `continue` guards fires, otherwise the row's raw item.
The Python guards run in sequence over pure data, so they are equivalent to
this single conjunction. -/
def stdRowItem (idx : ColIdx) (row : Row) : Option RawItem :=
  if row.any truthy && stdLvOk idx row && idx.description.isSome &&
      !((stdRowDesc idx row).length < 3) && !stdSkip (stdRowDesc idx row) then
    some ⟨String.mk ((stdRowDesc idx row).take 100), rowNsn idx row,
      rowQtyStd idx row⟩
  else none

/-- One data row of the EPP-path loop (lines 472-513). -/
def eppRowItem (idx : ColIdx) (row : Row) : Option RawItem :=
  if row.any truthy && !eppLvSkip idx row && idx.description.isSome &&
      !(eppRowDesc idx row).isEmpty && !eppExactSkip (eppRowDesc idx row) then
    some ⟨String.mk ((eppRowDesc idx row).take 100), rowNsn idx row,
      rowQtyEpp idx row⟩
  else none

/-- Standard-path description-column fallback (lines 337-344): first truthy
header cell whose uppercased text contains `DESC`. -/
def stdDescFallback (header : Row) : Option Nat :=
  header.enum.findSome? (fun p =>
    match p.2 with
    | none => none
    | some s =>
      if s = "" then none
      else if containsSub ("DESC").data (pyUpper s.data) then some p.1
      else none)

/-- EPP-path description-column fallback (lines 458-467): the loop has no
`break`, so the last matching truthy header cell wins. -/
def eppDescFallback (header : Row) (start : Option Nat) : Option Nat :=
  header.enum.foldl (fun acc p =>
    match p.2 with
    | none => acc
    | some s =>
      if s = "" then acc
      else
        let t := pyUpper s.data
        if containsSub ("DESCR").data t || t = ("DESC").data then some p.1
        else acc) start

/-- The raw items of one table in the standard path (lines 327-417). -/
def stdTableItems (t : Table) : List RawItem :=
  match t with
  | [] => []
  | _ :: [] => []
  | header :: rows =>
    let idx0 := find_column_indices header
    let idx :=
      match idx0.description with
      | some _ => idx0
      | none => { idx0 with description := stdDescFallback header }
    match idx.description with
    | none => []
    | some _ => rows.filterMap (stdRowItem idx)

/-- The raw items of one table in the EPP path (lines 445-513). -/
def eppTableItems (t : Table) : List RawItem :=
  match t with
  | [] => []
  | _ :: [] => []
  | header :: rows =>
    let idx0 := find_column_indices header
    let idx :=
      match idx0.description with
      | some _ => idx0
      | none => { idx0 with description := eppDescFallback header none }
    match idx.description with
    | none => []
    | some _ => rows.filterMap (eppRowItem idx)

/-- Turn accumulistically appended raw items into `BomItem`s: the Python
loops set `line_no = len(items) + 1` at each append, i.e. the position. -/
def mkItems (raw : List RawItem) : List BomItem :=
  raw.enum.map (fun p =>
    { line_no := p.1 + 1
      description := p.2.description
      nsn := p.2.nsn
      qty := p.2.qty
      unit_of_issue := "EA"
      original_description := p.2.description })

/-- `extract_items_gcss_standard` (lines 308-419). -/
def extract_items_gcss_standard (tables : List Table) : List BomItem :=
  mkItems ((tables.map stdTableItems).flatten)

/-- `extract_items_epp_format` (lines 422-515); `page_text` is accepted but,
as in the source, never read. -/
def extract_items_epp_format (tables : List Table) (page_text : String) : List BomItem :=
  let _ := page_text
  mkItems ((tables.map eppTableItems).flatten)

/-! ## Extraction orchestrator -/

/-- What the orchestrator reads from one PDF page: its tables and text. -/
structure PageData where
  tables : List Table
  text : String
deriving DecidableEq, Repr

/-- Per-page dispatch of `extract_items_from_pdf` (lines 603-611): known
formats go to their extractor; `UNKNOWN` tries the standard extractor first
and falls back to the EPP extractor when the standard one found nothing. -/
def pageExtract (fmt : BomFormat) (p : PageData) : List BomItem :=
  match fmt with
  | BomFormat.GCSS_ARMY_STANDARD => extract_items_gcss_standard p.tables
  | BomFormat.EPP_FORMAT => extract_items_epp_format p.tables p.text
  | BomFormat.UNKNOWN =>
    let s := extract_items_gcss_standard p.tables
    if s.isEmpty then extract_items_epp_format p.tables p.text else s

/-- The renumbering pass (lines 616-617): `item.line_no = i + 1`. -/
def renumber (l : List BomItem) : List BomItem :=
  l.enum.map (fun p => { p.2 with line_no := p.1 + 1 })

/-- The warning text of line 622. -/
def noItemsWarning : String :=
  "No items extracted. Ensure the PDF is a GCSS-Army BOM format."

/-- The error text of line 583. -/
def startPageError (start_page pages : Nat) : String :=
  "Start page " ++ toString start_page ++ " exceeds document length (" ++
    toString pages ++ " pages)"

/-- `extract_items_from_pdf` (lines 563-627).  The document argument is
`.error e` when `pdfplumber.open` (or any page decode) raises with message
`e`, which the Python code catches and converts at this boundary; otherwise
the pages of the opened document. -/
def extract_items_from_pdf (doc : Except String (List PageData))
    (start_page : Nat) : ExtractionResult :=
  match doc with
  | Except.error e => { errors := ["Failed to process PDF: " ++ e] }
  | Except.ok pages =>
    if pages.length ≤ start_page then
      { errors := [startPageError start_page pages.length] }
    else
      let rest := pages.drop start_page
      let fmt :=
        match rest with
        | [] => BomFormat.UNKNOWN
        | first :: _ => detect_bom_format first.tables first.text
      let items := renumber ((rest.map (pageExtract fmt)).flatten)
      { items := items
        warnings := if items.isEmpty then [noItemsWarning] else []
        errors := []
        pages_processed := rest.length
        format_detected := fmt }

/-! ## Layout and pagination engine -/

/-- `ROWS_PER_PAGE` (line 30). -/
def ROWS_PER_PAGE : Nat := 18

/-- `math.ceil(len(items) / ROWS_PER_PAGE)` (line 740). -/
def totalPagesFor (n : Nat) : Nat :=
  (n + ROWS_PER_PAGE - 1) / ROWS_PER_PAGE

/-- The page slices of lines 743-746: `items[p*18 : min((p+1)*18, len)]`. -/
def paginate (items : List BomItem) : List (List BomItem) :=
  (List.range (totalPagesFor items.length)).map
    (fun p => (items.drop (p * ROWS_PER_PAGE)).take ROWS_PER_PAGE)

/-- One AcroForm text-field widget as built in lines 783-810: `/V` and `/DV`
are written as the empty string, `/F` is the print flag 4, and `/Ff` is 0
(editable). -/
structure FormField where
  name : String
  rect : Nat × Nat × Nat × Nat
  tooltip : String
  value : String
  dv : String
  flagF : Nat
  flagFf : Nat
deriving DecidableEq, Repr

/-- The fixed field table of lines 764-772, combined with the constant
annotation attributes of lines 783-802. -/
def dd1750FormFields : List FormField :=
  [⟨"packed_by", (92, 732, 230, 746), "Packed By", "", "", 4, 0⟩,
   ⟨"no_boxes", (282, 732, 332, 746), "Number of Boxes", "", "", 4, 0⟩,
   ⟨"req_no", (405, 732, 566, 746), "Requisition Number", "", "", 4, 0⟩,
   ⟨"order_no", (405, 712, 566, 726), "Order Number", "", "", 4, 0⟩,
   ⟨"end_item", (92, 689, 370, 703), "End Item", "", "", 4, 0⟩,
   ⟨"date", (447, 689, 566, 703), "Date", "", "", 4, 0⟩,
   ⟨"typed_name", (92, 46, 290, 60), "Typed Name and Title", "", "", 4, 0⟩]

/-- One page of the produced document: either the untouched blank template
(the zero-item case of lines 731-738) or a composited content page carrying
the overlay's stamped page number and page total (lines 659-661), its up to
18 item rows, and the form fields attached to it (first page only). -/
inductive OutPage where
  | blankTemplate : OutPage
  | content (pageNum : Nat) (totalPages : Nat) (rows : List BomItem)
      (fields : List FormField) : OutPage
deriving DecidableEq, Repr

/-- The annotation fields attached to a page. -/
def pageFields : OutPage → List FormField
  | OutPage.blankTemplate => []
  | OutPage.content _ _ _ fs => fs

/-- `generate_dd1750_from_items` (lines 707-815) as a function to the list of
produced pages.  The `header` argument is accepted exactly as in the source,
where nothing in the field-construction code reads it. -/
def generate_dd1750_from_items (items : List BomItem)
    (header : Option HeaderInfo) : List OutPage :=
  let _ := header
  if items.isEmpty then [OutPage.blankTemplate]
  else
    let total := totalPagesFor items.length
    (paginate items).enum.map (fun p =>
      OutPage.content (p.1 + 1) total p.2
        (if p.1 = 0 then dd1750FormFields else []))

/-! ## Lemmas: shape of extracted stock numbers -/

theorem leadingNine_shape {l d : List Char} (h : leadingNine l = some d) :
    d.length = 9 ∧ d.all Char.isDigit = true := by
  unfold leadingNine at h
  split at h
  · rename_i hg
    cases h
    simp only [Bool.and_eq_true, beq_iff_eq] at hg
    exact ⟨hg.1.1, hg.1.2⟩
  · cases h

theorem searchNine_shape :
    ∀ (b : Bool) (l d : List Char), searchNine b l = some d →
      d.length = 9 ∧ d.all Char.isDigit = true
  | _, [], _, h => by cases h
  | b, c :: rest, d, h => by
    unfold searchNine at h
    split at h
    · rename_i heq
      cases h
      split at heq
      · exact leadingNine_shape heq
      · cases heq
    · exact searchNine_shape (!isWordC c) rest d h

theorem nsnAt_shape {l d : List Char} (h : nsnAt l = some d) :
    d.length = 9 ∧ d.all Char.isDigit = true := by
  unfold nsnAt at h
  split at h
  · split at h
    · rename_i hg
      cases h
      simp only [Bool.and_eq_true, List.all_cons, List.all_nil] at hg
      refine ⟨rfl, ?_⟩
      simp only [List.all_cons, List.all_nil, Bool.and_eq_true]
      tauto
    · cases h
  · cases h

theorem searchNsn_shape :
    ∀ (b : Bool) (l d : List Char), searchNsn b l = some d →
      d.length = 9 ∧ d.all Char.isDigit = true
  | _, [], _, h => by cases h
  | b, c :: rest, d, h => by
    unfold searchNsn at h
    split at h
    · rename_i heq
      cases h
      split at heq
      · exact nsnAt_shape heq
      · cases heq
    · exact searchNsn_shape (!isWordC c) rest d h

theorem nsnLayerLine_shape {t d : List Char} (h : nsnLayerLine t = some d) :
    d.length = 9 ∧ d.all Char.isDigit = true := by
  obtain ⟨line, -, hline⟩ := List.exists_of_findSome?_eq_some h
  exact leadingNine_shape hline

/-- Every non-empty result of the extractor is exactly nine digits. -/
theorem extract_nsn_shape (s : String) :
    extract_nsn_from_material s = "" ∨
      isNineDigits (extract_nsn_from_material s) = true := by
  unfold extract_nsn_from_material
  split
  · exact Or.inl rfl
  · rcases h1 : nsnLayerLine (pyStrip s.data) with - | d
    · rcases h2 : nsnLayerAny (pyStrip s.data) with - | d
      · rcases h3 : nsnLayerHyphen (pyStrip s.data) with - | d
        · simp [h1, h2, h3]
        · obtain ⟨hl, hd⟩ := searchNsn_shape true _ d h3
          simp [h1, h2, h3, isNineDigits, hl, hd]
      · obtain ⟨hl, hd⟩ := searchNine_shape true _ d h2
        simp [h1, h2, isNineDigits, hl, hd]
    · obtain ⟨hl, hd⟩ := nsnLayerLine_shape h1
      simp [h1, isNineDigits, hl, hd]

/-! ## Lemmas: the extractor fixes nine-digit strings -/

theorem digit_not_space {c : Char} (h : c.isDigit = true) : pyIsSpace c = false := by
  cases hc : pyIsSpace c
  · rfl
  · exfalso
    simp only [pyIsSpace, Bool.or_eq_true, decide_eq_true_eq] at hc
    rcases hc with ((((h1 | h1) | h1) | h1) | h1) | h1 <;> subst h1 <;>
      exact absurd h (by decide)

theorem dropWhile_eq_self {p : Char → Bool} {l : List Char}
    (h : ∀ c ∈ l, p c = false) : l.dropWhile p = l := by
  cases l with
  | nil => rfl
  | cons c t => simp [List.dropWhile_cons, h c (List.mem_cons_self c t)]

theorem pyStrip_eq_self {l : List Char} (h : ∀ c ∈ l, pyIsSpace c = false) :
    pyStrip l = l := by
  unfold pyStrip
  rw [dropWhile_eq_self h, dropWhile_eq_self (fun c hc => h c (List.mem_reverse.mp hc)),
    List.reverse_reverse]

theorem splitOnChar_eq_self {sep : Char} :
    ∀ {l : List Char}, (∀ c ∈ l, ¬c = sep) → splitOnChar sep l = [l]
  | [], _ => rfl
  | c :: t, h => by
    unfold splitOnChar
    rw [splitOnChar_eq_self (fun x hx => h x (List.mem_cons_of_mem c hx))]
    simp [h c (List.mem_cons_self c t)]

/-- A string that is exactly nine digits is a fixed point of the extractor:
its first line starts with nine digits followed by the end of the string. -/
theorem extract_nsn_of_nine {s : String} (h : isNineDigits s = true) :
    extract_nsn_from_material s = s := by
  simp only [isNineDigits, Bool.and_eq_true, decide_eq_true_eq] at h
  obtain ⟨hlen, hdig⟩ := h
  simp only [List.all_eq_true] at hdig
  have hne : ¬s = "" := by
    intro he
    rw [he] at hlen
    simp at hlen
  have hstrip : pyStrip s.data = s.data :=
    pyStrip_eq_self (fun c hc => digit_not_space (hdig c hc))
  have hsplit : splitOnChar '\n' s.data = [s.data] :=
    splitOnChar_eq_self (fun c hc hne2 => by
      rw [hne2] at hc
      exact absurd (hdig _ hc) (by simp [Char.isDigit]))
  have htake : s.data.take 9 = s.data := by
    rw [← hlen]
    exact List.take_length _
  have hdrop : s.data.drop 9 = [] := by
    rw [← hlen]
    exact List.drop_length _
  have hall : s.data.all Char.isDigit = true := List.all_eq_true.mpr hdig
  have hlead : leadingNine s.data = some s.data := by
    unfold leadingNine
    rw [htake, hdrop]
    simp [hlen, hall, boundaryOk]
  have hlayer : nsnLayerLine (pyStrip s.data) = some s.data := by
    unfold nsnLayerLine
    rw [hstrip, hsplit]
    simp [List.findSome?_cons, hstrip, hlead]
  unfold extract_nsn_from_material
  simp only [hne, if_false, hlayer]

/-- C2: stock-number extraction is total (always the empty string or exactly
nine digits), idempotent, layered in order (per-line leading token, then any
standalone nine-digit token, then the hyphenated `4-2-3-4` identifier whose
last three groups are concatenated), and agrees with the three documented
examples. -/
theorem extract_nsn_spec (s : String) :
    (extract_nsn_from_material s = "" ∨
      isNineDigits (extract_nsn_from_material s) = true) ∧
    extract_nsn_from_material (extract_nsn_from_material s) =
      extract_nsn_from_material s ∧
    (∀ d, ¬s = "" → nsnLayerLine (pyStrip s.data) = some d →
      extract_nsn_from_material s = String.mk d) ∧
    (∀ d, ¬s = "" → nsnLayerLine (pyStrip s.data) = none →
      nsnLayerAny (pyStrip s.data) = some d →
      extract_nsn_from_material s = String.mk d) ∧
    (∀ d, ¬s = "" → nsnLayerLine (pyStrip s.data) = none →
      nsnLayerAny (pyStrip s.data) = none →
      nsnLayerHyphen (pyStrip s.data) = some d →
      extract_nsn_from_material s = String.mk d) ∧
    (¬s = "" → nsnLayerLine (pyStrip s.data) = none →
      nsnLayerAny (pyStrip s.data) = none →
      nsnLayerHyphen (pyStrip s.data) = none →
      extract_nsn_from_material s = "") ∧
    extract_nsn_from_material ("002643796\nC_19207 ~ 11655778-5") = "002643796" ∧
    extract_nsn_from_material ("6545-00-922-1200") = "009221200" ∧
    extract_nsn_from_material ("no numbers here") = "" := by
  refine ⟨extract_nsn_shape s, ?_, ?_, ?_, ?_, ?_, by decide, by decide, by decide⟩
  · rcases extract_nsn_shape s with h | h
    · rw [h]
      decide
    · exact extract_nsn_of_nine h
  · intro d hne h1
    unfold extract_nsn_from_material
    simp [hne, h1]
  · intro d hne h1 h2
    unfold extract_nsn_from_material
    simp [hne, h1, h2]
  · intro d hne h1 h2 h3
    unfold extract_nsn_from_material
    simp [hne, h1, h2, h3]
  · intro hne h1 h2 h3
    unfold extract_nsn_from_material
    simp [hne, h1, h2, h3]

/-- Witness for C2: the hyphenated-identifier layer fires on the documented
NSN example after the first two layers find nothing. -/
theorem extract_nsn_spec_witness :
    extract_nsn_from_material ("6545-00-922-1200") = String.mk (("009221200").data) :=
  (extract_nsn_spec ("6545-00-922-1200")).2.2.2.2.1 (("009221200").data)
    (by decide) (by decide) (by decide) (by decide)

/-! ## C5: quantity extraction -/

/-- C5 counterexample: the cell text `"0"` is truthy in Python, its first
digit run is `0`, and `int("0") = 0` is returned — not a positive integer. -/
theorem extract_quantity_zero_counterexample :
    extract_quantity (some ("0")) = 0 ∧ ¬0 < extract_quantity (some ("0")) := by
  decide

/-- C5 amended: quantity extraction returns a nonnegative integer — 1 for an
absent/empty/digit-free cell, otherwise the integer value of the first digit
run (which may be 0); `"  12 EA"` yields 12. -/
theorem extract_quantity_spec :
    extract_quantity none = 1 ∧
    extract_quantity (some ("")) = 1 ∧
    (∀ s : String, firstDigitRun (pyStrip s.data) = none →
      extract_quantity (some s) = 1) ∧
    (∀ (s : String) (ds : List Char), firstDigitRun (pyStrip s.data) = some ds →
      ¬s = "" → extract_quantity (some s) = digitsToNat ds) ∧
    extract_quantity (some ("  12 EA")) = 12 := by
  refine ⟨rfl, rfl, ?_, ?_, by decide⟩
  · intro s h
    by_cases hs : s = ""
    · subst hs
      rfl
    · simp [extract_quantity, hs, h]
  · intro s ds h hne
    simp [extract_quantity, hne, h]

/-- Witness for C5: the digit-run branch fires on the documented example. -/
theorem extract_quantity_spec_witness :
    extract_quantity (some ("  12 EA")) = digitsToNat (("12").data) :=
  extract_quantity_spec.2.2.2.1 ("  12 EA") (("12").data) (by decide) (by decide)

/-! ## C6: format detection -/

/-- C6: format detection is total and applies its rules in priority order:
listing marker with an LV header gives the standard format; listing marker
with both AUTH and QTY in the page text gives the standard format; otherwise
the EPP page markers give the EPP format; otherwise a MATERIAL+DESCRIPTION
table header gives the standard format; otherwise UNKNOWN.  A page whose
header row contains `LV` with `COMPONENT LISTING` in its text is standard; a
page with no markers and no material/description header is unknown. -/
theorem detect_bom_format_spec :
    (∀ (tables : List Table) (pt : String), listingMarker (pyUpper pt.data) = true →
      lvHeaderMarker tables = true →
      detect_bom_format tables pt = BomFormat.GCSS_ARMY_STANDARD) ∧
    (∀ (tables : List Table) (pt : String), listingMarker (pyUpper pt.data) = true →
      authQtyMarker (pyUpper pt.data) = true →
      detect_bom_format tables pt = BomFormat.GCSS_ARMY_STANDARD) ∧
    (∀ (tables : List Table) (pt : String),
      (listingMarker (pyUpper pt.data) = false ∨
        (lvHeaderMarker tables = false ∧ authQtyMarker (pyUpper pt.data) = false)) →
      eppMarker (pyUpper pt.data) = true →
      detect_bom_format tables pt = BomFormat.EPP_FORMAT) ∧
    (∀ (tables : List Table) (pt : String),
      (listingMarker (pyUpper pt.data) = false ∨
        (lvHeaderMarker tables = false ∧ authQtyMarker (pyUpper pt.data) = false)) →
      eppMarker (pyUpper pt.data) = false → matDescHeaderMarker tables = true →
      detect_bom_format tables pt = BomFormat.GCSS_ARMY_STANDARD) ∧
    (∀ (tables : List Table) (pt : String),
      (listingMarker (pyUpper pt.data) = false ∨
        (lvHeaderMarker tables = false ∧ authQtyMarker (pyUpper pt.data) = false)) →
      eppMarker (pyUpper pt.data) = false → matDescHeaderMarker tables = false →
      detect_bom_format tables pt = BomFormat.UNKNOWN) ∧
    detect_bom_format [[[some ("LV"), some ("DESCRIPTION")]]] ("COMPONENT LISTING") =
      BomFormat.GCSS_ARMY_STANDARD ∧
    detect_bom_format [] ("nothing relevant on this page") = BomFormat.UNKNOWN := by
  refine ⟨?_, ?_, ?_, ?_, ?_, by decide, by decide⟩
  · intro tables pt h1 h2
    simp [detect_bom_format, h1, h2]
  · intro tables pt h1 h2
    by_cases hlv : lvHeaderMarker tables <;> simp [detect_bom_format, h1, h2, hlv]
  · intro tables pt h1 h2
    rcases h1 with h1 | ⟨ha, hb⟩
    · simp [detect_bom_format, h1, h2]
    · simp [detect_bom_format, ha, hb, h2]
  · intro tables pt h1 h2 h3
    rcases h1 with h1 | ⟨ha, hb⟩
    · simp [detect_bom_format, h1, h2, h3]
    · simp [detect_bom_format, ha, hb, h2, h3]
  · intro tables pt h1 h2 h3
    rcases h1 with h1 | ⟨ha, hb⟩
    · simp [detect_bom_format, h1, h2, h3]
    · simp [detect_bom_format, ha, hb, h2, h3]

/-- Witness for C6: the first detection rule fires on a concrete page. -/
theorem detect_bom_format_spec_witness :
    detect_bom_format [[[some ("LV"), some ("DESCRIPTION")]]] ("COMPONENT LISTING") =
      BomFormat.GCSS_ARMY_STANDARD :=
  detect_bom_format_spec.1 [[[some ("LV"), some ("DESCRIPTION")]]] ("COMPONENT LISTING")
    (by decide) (by decide)

/-! ## C4: renumbering invariant -/

theorem enumFrom_renumber_line_no :
    ∀ (l : List BomItem) (n : Nat),
      ((l.enumFrom n).map
          (fun p => ({ p.2 with line_no := p.1 + 1 } : BomItem))).map
        (fun it => it.line_no) = List.range' (n + 1) l.length
  | [], _ => rfl
  | a :: t, n => by
    simp only [List.enumFrom_cons, List.map_cons, List.length_cons, List.range'_succ]
    exact congrArg (List.cons (n + 1)) (enumFrom_renumber_line_no t (n + 1))

/-- The renumbering pass makes `line_no` exactly `1..N`. -/
theorem renumber_line_no (l : List BomItem) :
    (renumber l).map (fun it => it.line_no) = List.range' 1 l.length :=
  enumFrom_renumber_line_no l 0

theorem renumber_length (l : List BomItem) : (renumber l).length = l.length := by
  simp [renumber]

/-- C4: after orchestration renumbering, the `line_no` values of the items of
any extraction run are exactly the contiguous, strictly increasing run
`1..N` in emission order, whatever document the orchestrator was given. -/
theorem extract_line_no_contiguous (doc : Except String (List PageData))
    (start_page : Nat) :
    ((extract_items_from_pdf doc start_page).items).map (fun it => it.line_no) =
      List.range' 1 ((extract_items_from_pdf doc start_page).items).length := by
  cases doc with
  | error e => rfl
  | ok pages =>
    simp only [extract_items_from_pdf]
    split
    · rfl
    · rw [renumber_length]
      exact renumber_line_no _

/-! ## C7: orchestrator error boundary -/

/-- C7: the extraction entry point is total.  A start page beyond the
document is reported in the error list with zero items and zero pages
processed; an unopenable document becomes a single descriptive error string;
a successful run that finds no items records a warning and no error. -/
theorem extract_boundary_spec (pages : List PageData) (start_page : Nat)
    (e : String) :
    (pages.length ≤ start_page →
      (extract_items_from_pdf (Except.ok pages) start_page).errors =
          [startPageError start_page pages.length] ∧
        (extract_items_from_pdf (Except.ok pages) start_page).items = [] ∧
        (extract_items_from_pdf (Except.ok pages) start_page).pages_processed = 0) ∧
    ((extract_items_from_pdf (Except.error e) start_page).errors =
        ["Failed to process PDF: " ++ e] ∧
      (extract_items_from_pdf (Except.error e) start_page).items = [] ∧
      (extract_items_from_pdf (Except.error e) start_page).pages_processed = 0) ∧
    (start_page < pages.length →
      (extract_items_from_pdf (Except.ok pages) start_page).items = [] →
      (extract_items_from_pdf (Except.ok pages) start_page).warnings =
          [noItemsWarning] ∧
        (extract_items_from_pdf (Except.ok pages) start_page).errors = []) := by
  refine ⟨?_, by exact ⟨rfl, rfl, rfl⟩, ?_⟩
  · intro h
    simp [extract_items_from_pdf, h]
  · intro h hitems
    have hn : ¬pages.length ≤ start_page := Nat.not_le.mpr h
    simp only [extract_items_from_pdf, hn, if_false] at hitems ⊢
    rw [hitems]
    simp

/-- Witness for C7: the out-of-range branch on the empty document and the
no-items warning on a one-page document with no tables. -/
theorem extract_boundary_spec_witness :
    (extract_items_from_pdf (Except.ok ([] : List PageData)) 0).items = [] ∧
    (extract_items_from_pdf
        (Except.ok [({ tables := [], text := "x" } : PageData)]) 0).warnings =
      [noItemsWarning] :=
  ⟨((extract_boundary_spec [] 0 ("e")).1 (by decide)).2.1,
    ((extract_boundary_spec [{ tables := [], text := "x" }] 0 ("e")).2.2
      (by decide) (by decide)).1⟩

/-! ## C3: pagination -/

/-- C3: pagination yields exactly `ceil(N/18)` content pages (characterised
by `N ≤ 18·pages < N + 18`), record `i` lands on page `i / 18` at row
`i % 18`, the zero-item case returns the untouched blank template, and every
produced content page is stamped with its 1-based page number and the page
total computed from the pagination result. -/
theorem pagination_spec (items : List BomItem) (hdr : Option HeaderInfo) :
    (items = [] →
      generate_dd1750_from_items items hdr = [OutPage.blankTemplate]) ∧
    (paginate items).length = totalPagesFor items.length ∧
    (items.length ≤ ROWS_PER_PAGE * (paginate items).length ∧
      ROWS_PER_PAGE * (paginate items).length < items.length + ROWS_PER_PAGE) ∧
    (∀ i, i < items.length →
      ((paginate items).getD (i / ROWS_PER_PAGE) []).getD (i % ROWS_PER_PAGE)
          default = items.getD i default) ∧
    (¬items = [] → ∀ p, p < totalPagesFor items.length →
      (generate_dd1750_from_items items hdr).getD p OutPage.blankTemplate =
        OutPage.content (p + 1) (totalPagesFor items.length)
          ((items.drop (p * ROWS_PER_PAGE)).take ROWS_PER_PAGE)
          (if p = 0 then dd1750FormFields else [])) := by
  refine ⟨?_, ?_, ?_, ?_, ?_⟩
  · intro h
    subst h
    rfl
  · simp [paginate]
  · simp only [paginate, totalPagesFor, ROWS_PER_PAGE, List.length_map,
      List.length_range]
    omega
  · intro i hi
    simp only [paginate, totalPagesFor, ROWS_PER_PAGE]
    have hq : i / 18 < (items.length + 18 - 1) / 18 := by omega
    simp only [List.getD_eq_getElem?_getD]
    rw [List.getElem?_map, List.getElem?_range hq]
    simp only [Option.map_some', Option.getD_some]
    rw [List.getElem?_take, if_pos (Nat.mod_lt i (by decide : 0 < 18)),
      List.getElem?_drop]
    have hix : i / 18 * 18 + i % 18 = i := by omega
    rw [hix]
  · intro hne p hp
    have hee : items.isEmpty = false := List.isEmpty_eq_false.mpr hne
    have hp2 : p < (paginate items).length := by
      simpa [paginate] using hp
    simp only [generate_dd1750_from_items, hee, Bool.false_eq_true, if_false]
    rw [List.getD_eq_getElem?_getD, List.getElem?_map, List.getElem?_enum]
    have hval : (paginate items)[p]? =
        some ((items.drop (p * ROWS_PER_PAGE)).take ROWS_PER_PAGE) := by
      simp only [paginate] at hp2 ⊢
      rw [List.getElem?_map, List.getElem?_range (by simpa using hp2)]
      rfl
    rw [hval]
    rfl

/-- Witness for C3: the placement and stamping clauses at a concrete
19-item list (two pages: 18 rows then 1 row). -/
theorem pagination_spec_witness :
    ((paginate ((List.range 19).map
          (fun i => ({ line_no := i, description := "D" } : BomItem)))).getD
        (18 / ROWS_PER_PAGE) []).getD (18 % ROWS_PER_PAGE) default =
      ((List.range 19).map
          (fun i => ({ line_no := i, description := "D" } : BomItem))).getD 18
        default :=
  (pagination_spec ((List.range 19).map
      (fun i => ({ line_no := i, description := "D" } : BomItem))) none).2.2.2.1 18
    (by decide)


/-! ## C9: unknown-format fallback -/

/-- C9: on a page of undetected format the orchestrator runs the standard
extractor first, keeps its output when non-empty, otherwise uses the EPP
extractor's output, and when both are empty the result equals the standard
extractor's empty output; the per-page dispatch is exactly what the
orchestrator applies to every page of an `UNKNOWN`-format document. -/
theorem unknown_fallback_spec (tables : List Table) (pt : String) (p : PageData) :
    (¬extract_items_gcss_standard tables = [] →
      pageExtract BomFormat.UNKNOWN { tables := tables, text := pt } =
        extract_items_gcss_standard tables) ∧
    (extract_items_gcss_standard tables = [] →
      pageExtract BomFormat.UNKNOWN { tables := tables, text := pt } =
        extract_items_epp_format tables pt) ∧
    (extract_items_gcss_standard tables = [] →
      extract_items_epp_format tables pt = [] →
      pageExtract BomFormat.UNKNOWN { tables := tables, text := pt } =
        extract_items_gcss_standard tables) ∧
    (detect_bom_format p.tables p.text = BomFormat.UNKNOWN →
      (extract_items_from_pdf (Except.ok [p]) 0).items =
        renumber (pageExtract BomFormat.UNKNOWN p)) := by
  refine ⟨?_, ?_, ?_, ?_⟩
  · intro h
    simp [pageExtract, List.isEmpty_eq_false.mpr h]
  · intro h
    simp [pageExtract, h]
  · intro h1 h2
    simp [pageExtract, h1, h2]
  · intro hdet
    simp [extract_items_from_pdf, hdet]

/-- Witness for C9: a page whose standard extraction is non-empty keeps the
standard extraction under the unknown-format fallback. -/
theorem unknown_fallback_spec_witness :
    pageExtract BomFormat.UNKNOWN
        { tables := [[[some ("LV"), some ("DESCRIPTION")],
            [some ("B"), some ("WRENCH SET")]]], text := "t" } =
      extract_items_gcss_standard
        [[[some ("LV"), some ("DESCRIPTION")], [some ("B"), some ("WRENCH SET")]]] :=
  (unknown_fallback_spec
      [[[some ("LV"), some ("DESCRIPTION")], [some ("B"), some ("WRENCH SET")]]]
      ("t") { tables := [], text := "" }).1 (by decide)

/-! ## C10: only the authorized-quantity column is read -/

theorem stdRowItem_qty_eq {idx : ColIdx} {row : Row} {r : RawItem}
    (h : stdRowItem idx row = some r) : r.qty = rowQtyStd idx row := by
  unfold stdRowItem at h
  split at h
  · cases h
    rfl
  · cases h

theorem eppRowItem_qty_eq {idx : ColIdx} {row : Row} {r : RawItem}
    (h : eppRowItem idx row = some r) : r.qty = rowQtyEpp idx row := by
  unfold eppRowItem at h
  split at h
  · cases h
    rfl
  · cases h

/-- C10: the column mapper does resolve the on-hand-quantity column, yet
neither per-format row extractor reads it (their output is invariant under
replacing it), and a row whose authorized-quantity column is unresolved or
out of range yields quantity 1 in both extraction paths. -/
theorem auth_qty_only_spec (idx : ColIdx) (row : Row) (v : Option Nat)
    (r : RawItem) (a : Nat) :
    find_column_indices [some ("AUTH QTY"), some ("OH QTY")] =
      { auth_qty := some 0, oh_qty := some 1 } ∧
    stdRowItem { idx with oh_qty := v } row = stdRowItem idx row ∧
    eppRowItem { idx with oh_qty := v } row = eppRowItem idx row ∧
    (idx.auth_qty = none → stdRowItem idx row = some r → r.qty = 1) ∧
    (idx.auth_qty = none → eppRowItem idx row = some r → r.qty = 1) ∧
    (idx.auth_qty = some a → row.length ≤ a →
      stdRowItem idx row = some r → r.qty = 1) ∧
    (idx.auth_qty = some a → row.length ≤ a →
      eppRowItem idx row = some r → r.qty = 1) := by
  refine ⟨by decide, rfl, rfl, ?_, ?_, ?_, ?_⟩
  · intro ha h
    rw [stdRowItem_qty_eq h]
    simp [rowQtyStd, ha]
  · intro ha h
    rw [eppRowItem_qty_eq h]
    simp [rowQtyEpp, ha]
  · intro ha hle h
    rw [stdRowItem_qty_eq h]
    simp [rowQtyStd, ha, Nat.not_lt.mpr hle]
  · intro ha hle h
    rw [eppRowItem_qty_eq h]
    simp [rowQtyEpp, ha, Nat.not_lt.mpr hle]

/-- Witness for C10: a row with an out-of-range authorized-quantity column
and an in-range on-hand value still gets quantity 1. -/
theorem auth_qty_only_spec_witness :
    stdRowItem { description := some 0, auth_qty := some 5, oh_qty := some 1 }
        [some ("WRENCH SET"), some ("7")] = some ⟨"WRENCH SET", "", 1⟩ ∧
    (⟨"WRENCH SET", "", 1⟩ : RawItem).qty = 1 :=
  ⟨by decide,
    (auth_qty_only_spec { description := some 0, auth_qty := some 5, oh_qty := some 1 }
        [some ("WRENCH SET"), some ("7")] none ⟨"WRENCH SET", "", 1⟩ 5).2.2.2.2.2.1
      rfl (by decide) (by decide)⟩

/-! ## C8: level filtering in the standard path -/

/-- C8 counterexample: a row whose level value is `B` and whose description
cell is the non-empty `"AB"` is not emitted (the extracted description must
be at least three characters), refuting the claim that every `B` row with a
non-empty description yields an item. -/
theorem std_level_b_counterexample :
    extract_items_gcss_standard
        [[[some ("LV"), some ("DESC")], [some ("B"), some ("AB")]]] = [] ∧
    ¬("AB" : String) = "" ∧
    find_column_indices [some ("LV"), some ("DESC")] =
      { lv := some 0, description := some 1 } := by
  refine ⟨by decide, by decide, by decide⟩

/-- C8 amended: in the standard path with a resolved level column, a row
whose level value strips/uppercases to `A` is never emitted; a row whose
level value is `B` is emitted exactly when its extracted description (first
cell line of length ≥ 3, whitespace-normalised, trailing slashes removed) has
at least three characters and matches no category skip pattern.  Both
directions are stated: the emission under those conditions, and that every
emitted row passed the level gate (which, on a resolved level cell, holds
exactly for a truthy value stripping/uppercasing to `B`), had an extracted
description of length at least three, matched no skip pattern, and is
exactly the predicted item. -/
theorem std_level_spec (idx : ColIdx) (row : Row) (i d : Nat) (s : String) :
    (idx.lv = some i → row.getD i none = some s →
      pyStrip (pyUpper s.data) = ("A").data → stdRowItem idx row = none) ∧
    (idx.lv = some i → idx.description = some d → row.getD i none = some s →
      pyStrip (pyUpper s.data) = ("B").data →
      3 ≤ (stdRowDesc idx row).length → stdSkip (stdRowDesc idx row) = false →
      stdRowItem idx row = some ⟨String.mk ((stdRowDesc idx row).take 100),
        rowNsn idx row, rowQtyStd idx row⟩) ∧
    (∀ r : RawItem, stdRowItem idx row = some r →
      stdLvOk idx row = true ∧ 3 ≤ (stdRowDesc idx row).length ∧
        stdSkip (stdRowDesc idx row) = false ∧
        r = ⟨String.mk ((stdRowDesc idx row).take 100), rowNsn idx row,
          rowQtyStd idx row⟩) ∧
    (idx.lv = some i → row.getD i none = some s →
      (stdLvOk idx row = true ↔
        (¬s = "" ∧ pyStrip (pyUpper s.data) = ("B").data))) := by
  refine ⟨?_, ?_, ?_, ?_⟩
  · intro hlv hrow hs
    have hsne : ¬s = "" := by
      intro he
      subst he
      exact absurd hs (by decide)
    have hlvok : stdLvOk idx row = false := by
      simp only [stdLvOk, hlv, hrow, hsne, if_false, hs]
      decide
    simp [stdRowItem, hlvok]
  · intro hlv hd hrow hs h3 hskip
    have hsne : ¬s = "" := by
      intro he
      subst he
      exact absurd hs (by decide)
    have hsome : row[i]? = some (some s) := by
      cases hx : row[i]? with
      | none =>
        rw [List.getD_eq_getElem?_getD, hx] at hrow
        cases hrow
      | some x =>
        rw [List.getD_eq_getElem?_getD, hx] at hrow
        simp only [Option.getD_some] at hrow
        rw [hrow]
    have hany : row.any truthy = true := by
      refine List.any_eq_true.mpr ⟨some s, List.getElem?_mem hsome, ?_⟩
      simp [truthy, hsne]
    have hlvok : stdLvOk idx row = true := by
      simp only [stdLvOk, hlv, hrow, hsne, if_false, hs]
      decide
    simp [stdRowItem, hany, hlvok, hd, Nat.not_lt.mpr h3, hskip]
  · intro r h
    unfold stdRowItem at h
    split at h
    · rename_i hg
      cases h
      simp only [Bool.and_eq_true, Bool.not_eq_true', decide_eq_false_iff_not,
        Nat.not_lt] at hg
      exact ⟨hg.1.1.1.2, hg.1.2, hg.2, rfl⟩
    · cases h
  · intro hlv hrow
    by_cases hse : s = ""
    · subst hse
      simp only [stdLvOk, hlv, hrow]
      simp
    · simp only [stdLvOk, hlv, hrow, hse, if_false]
      simp [hse]

/-- Witness for C8: a concrete `A`-level row is filtered out. -/
theorem std_level_spec_witness :
    stdRowItem { lv := some 0, description := some 1 }
      [some ("A"), some ("SOME CATEGORY")] = none :=
  (std_level_spec { lv := some 0, description := some 1 }
      [some ("A"), some ("SOME CATEGORY")] 0 1 ("A")).1 rfl (by decide) (by decide)

/-! ## C1: form fields on the first page -/

/-- C1 counterexample: with a caller-supplied `HeaderInfo` carrying a
non-empty packed-by name, every generated field still has the empty string
as its value — the fields are not pre-populated from `HeaderInfo`. -/
theorem form_fields_not_prepopulated_counterexample :
    (pageFields ((generate_dd1750_from_items
          [{ line_no := 1, description := "WRENCH" }]
          (some { packed_by := "SGT SMITH" })).getD 0 OutPage.blankTemplate)).map
        (fun f => (f.name, f.value)) =
      [("packed_by", ""), ("no_boxes", ""), ("req_no", ""), ("order_no", ""),
        ("end_item", ""), ("date", ""), ("typed_name", "")] ∧
    ¬({ packed_by := "SGT SMITH" } : HeaderInfo).packed_by = "" := by
  refine ⟨by decide, by decide⟩

/-- C1 amended: for a document generated from at least one item, the fixed
set of seven named, positioned text fields is attached to the first output
page and to no other page; each field's initial value is the empty string
regardless of any caller-supplied `HeaderInfo`, and each field is editable
(`/Ff` 0) and flagged to print (`/F` 4).  The zero-item document is the bare
blank template without fields. -/
theorem form_fields_spec (items : List BomItem) (hdr : Option HeaderInfo) :
    (¬items = [] →
      pageFields ((generate_dd1750_from_items items hdr).getD 0
          OutPage.blankTemplate) = dd1750FormFields ∧
      (∀ p, ¬p = 0 →
        pageFields ((generate_dd1750_from_items items hdr).getD p
            OutPage.blankTemplate) = [])) ∧
    dd1750FormFields.map (fun f => f.name) =
      ["packed_by", "no_boxes", "req_no", "order_no", "end_item", "date",
        "typed_name"] ∧
    (∀ f ∈ dd1750FormFields, f.value = "" ∧ f.dv = "" ∧ f.flagF = 4 ∧
      f.flagFf = 0) ∧
    (items = [] → generate_dd1750_from_items items hdr = [OutPage.blankTemplate]) := by
  refine ⟨?_, by decide, by decide, ?_⟩
  · intro hne
    have hee : items.isEmpty = false := List.isEmpty_eq_false.mpr hne
    have hlen : 0 < (paginate items).length := by
      have hn : 0 < items.length := List.length_pos.mpr hne
      simp only [paginate, totalPagesFor, ROWS_PER_PAGE, List.length_map,
        List.length_range]
      omega
    constructor
    · cases hp : paginate items with
      | nil =>
        rw [hp] at hlen
        cases hlen
      | cons a t =>
        simp [generate_dd1750_from_items, hee, hp, List.enum_cons, pageFields]
    · intro p hp0
      simp only [generate_dd1750_from_items, hee, Bool.false_eq_true, if_false]
      rw [List.getD_eq_getElem?_getD, List.getElem?_map, List.getElem?_enum]
      cases hx : (paginate items)[p]? with
      | none => rfl
      | some a => simp [pageFields, hp0]
  · intro h
    subst h
    rfl

/-- Witness for C1: the seven fields are attached to the first page of a
concrete one-item document. -/
theorem form_fields_spec_witness :
    pageFields ((generate_dd1750_from_items
        [{ line_no := 1, description := "WRENCH" }] none).getD 0
        OutPage.blankTemplate) = dd1750FormFields :=
  ((form_fields_spec [{ line_no := 1, description := "WRENCH" }] none).1
    (by decide)).1

end DD1750
